import Mathlib

/-!
Verification of the qianka-sqlalchemy connection/session registry
(file qianka/sqlalchemy/sqlalchemy.py).

The development shallowly embeds the registry object QKSQLAlchemy as a
state-passing machine over DBState, and the predicate extractor
_get_query_comparisons as a fold of visitor functions over a model of
the SQL expression tree.  Engines, sessions, tables and models are
given fresh numeric identities when constructed, so "identical object"
claims become equality of identities; ghost counters
(engineConstructions, introspections) instrument how many times an
engine was built and how many times the live schema was introspected.
Python dicts keyed by object identity (the binds map, the clauses set
of the extractor) are modelled as association lists over structural
equality, which coincides with identity on the concrete trees used
here (each bound-parameter node occurs once).
-/

/-- Python runtime values that appear as bound-parameter values:
ints, strings, tuples of values, and None. -/
inductive Val
  | vint (n : Int)
  | vstr (s : String)
  | vtup (vs : List Val)
  | vnone

/-- SQL comparison operators (the sqlalchemy.sql.operators module);
only in_op is treated specially by the source. -/
inductive Operator
  | eq | ne | lt | le | gt | ge | in_op | like_op
deriving DecidableEq, Repr

/-- Model of the SQLAlchemy clause tree walked by _get_query_comparisons:
column references, bound parameters (with literal default value and an
optional deferred-value callable, modelled by the value it returns),
binary expressions, groupings (parenthesization, delegating attribute
access to the wrapped element) and clause lists (including boolean
connectives such as AND/OR, which are clause lists in SQLAlchemy). -/
inductive Clause
  | column (name : String)
  | bindparam (key : String) (value : Val) (callable : Option Val)
  | binary (left : Clause) (op : Operator) (right : Clause)
  | grouping (element : Clause)
  | clauselist (clauses : List Clause)

mutual

/-- Structural equality test on values (deriving fails on the nested list). -/
def valBeq : Val → Val → Bool
  | .vint a, .vint b => a == b
  | .vstr a, .vstr b => a == b
  | .vtup a, .vtup b => valListBeq a b
  | .vnone, .vnone => true
  | _, _ => false

/-- Pointwise valBeq on lists. -/
def valListBeq : List Val → List Val → Bool
  | [], [] => true
  | a :: as, b :: bs => valBeq a b && valListBeq as bs
  | _, _ => false

end

/-- valBeq lifted to Option. -/
def valOptBeq : Option Val → Option Val → Bool
  | none, none => true
  | some a, some b => valBeq a b
  | _, _ => false

mutual

/-- Structural equality test on clause trees. -/
def clauseBeq : Clause → Clause → Bool
  | .column a, .column b => a == b
  | .bindparam k1 v1 c1, .bindparam k2 v2 c2 =>
      k1 == k2 && valBeq v1 v2 && valOptBeq c1 c2
  | .binary l1 o1 r1, .binary l2 o2 r2 =>
      clauseBeq l1 l2 && o1 == o2 && clauseBeq r1 r2
  | .grouping a, .grouping b => clauseBeq a b
  | .clauselist a, .clauselist b => clauseListBeq a b
  | _, _ => false

/-- Pointwise clauseBeq on lists. -/
def clauseListBeq : List Clause → List Clause → Bool
  | [], [] => true
  | a :: as, b :: bs => clauseBeq a b && clauseListBeq as bs
  | _, _ => false

end

mutual

theorem valBeq_refl : (v : Val) → valBeq v v = true
  | .vint _ => by simp [valBeq]
  | .vstr _ => by simp [valBeq]
  | .vtup a => by simp [valBeq, valListBeq_refl a]
  | .vnone => by simp [valBeq]

theorem valListBeq_refl : (l : List Val) → valListBeq l l = true
  | [] => by simp [valListBeq]
  | a :: as => by simp [valListBeq, valBeq_refl a, valListBeq_refl as]

end

theorem valOptBeq_refl : (o : Option Val) → valOptBeq o o = true
  | none => by simp [valOptBeq]
  | some a => by simp [valOptBeq, valBeq_refl a]

mutual

theorem clauseBeq_refl : (c : Clause) → clauseBeq c c = true
  | .column _ => by simp [clauseBeq]
  | .bindparam k v c => by simp [clauseBeq, valBeq_refl v, valOptBeq_refl c]
  | .binary l o r => by simp [clauseBeq, clauseBeq_refl l, clauseBeq_refl r]
  | .grouping a => by simp [clauseBeq, clauseBeq_refl a]
  | .clauselist a => by simp [clauseBeq, clauseListBeq_refl a]

theorem clauseListBeq_refl : (l : List Clause) → clauseListBeq l l = true
  | [] => by simp [clauseListBeq]
  | a :: as => by simp [clauseListBeq, clauseBeq_refl a, clauseListBeq_refl as]

end

/-- Model of an orm.Query as consumed by _get_query_comparisons: the
explicit parameter-value map query._params and the filter criterion
tree query._criterion (None when no filter was applied). -/
structure Query where
  params : List (String × Val)
  criterion : Option Clause

/-- Python exceptions raised by the embedded code paths: KeyError from
a missing dict key, TypeError from subscripting None. -/
inductive PyError
  | keyError
  | typeError
deriving DecidableEq, Repr

/-- Whether hasattr(node, "clauses") holds: true for clause lists and,
through attribute delegation, for groupings of clause lists. -/
def hasattrClauses : Clause → Bool
  | .clauselist _ => true
  | .grouping e => hasattrClauses e
  | _ => false

/-- The clauses attribute read in the IN branch of visit_binary;
groupings delegate to the wrapped element. -/
def getClauses : Clause → List Clause
  | .clauselist cs => cs
  | .grouping e => getClauses e
  | _ => []

/-- Resolution performed by visit_bindparam in _get_query_comparisons:
check query._params for the key first, else invoke the deferred-value
callable when one is present, else use the literal value attribute. -/
def visit_bindparam (q : Query) (key : String) (value : Val) (callable : Option Val) : Val :=
  match q.params.lookup key with
  | some v => v
  | none =>
    match callable with
    | some v => v
    | none => value

/-- Mutable accumulator of _get_query_comparisons: the binds dict
(bound-parameter node to resolved value), the clauses set (column
nodes seen) and the comparisons output list. -/
structure ExtractAcc where
  binds : List (Clause × Val)
  clauses : List Clause
  comparisons : List (Clause × Operator × Val)

/-- Lookup in the binds dict, keyed by the bound-parameter node. -/
def bindsLookup (binds : List (Clause × Val)) (c : Clause) : Option Val :=
  match binds.find? (fun p => clauseBeq p.1 c) with
  | some p => some p.2
  | none => none

/-- Membership in the clauses set of column nodes. -/
def inClauses (clauses : List Clause) (c : Clause) : Bool :=
  clauses.any (fun x => clauseBeq x c)

/-- The binary-expression visitor of _get_query_comparisons: records
col IN (params) via the clauses attribute of the right side, else a
comparison whose one side is a seen column and whose other side is a
resolved bound parameter (KeyError if an element of an IN list is not
in the binds dict, as the Python subscript would raise). -/
def visit_binary (acc : ExtractAcc) (l : Clause) (op : Operator) (r : Clause) :
    Except PyError ExtractAcc :=
  if inClauses acc.clauses l && op == Operator.in_op && hasattrClauses r then
    match (getClauses r).mapM (fun b =>
        match bindsLookup acc.binds b with
        | some v => Except.ok v
        | none => Except.error PyError.keyError) with
    | .error e => .error e
    | .ok vs =>
        .ok { acc with comparisons := acc.comparisons ++ [(l, op, Val.vtup vs)] }
  else if inClauses acc.clauses l && (bindsLookup acc.binds r).isSome then
    .ok { acc with comparisons :=
            acc.comparisons ++ [(l, op, (bindsLookup acc.binds r).getD Val.vnone)] }
  else if (bindsLookup acc.binds l).isSome && inClauses acc.clauses r then
    .ok { acc with comparisons :=
            acc.comparisons ++ [(r, op, (bindsLookup acc.binds l).getD Val.vnone)] }
  else
    .ok acc

/-- Dispatch of the visitor dictionary passed to traverse_depthfirst:
only bindparam, column and binary nodes have visitors. -/
def visitNode (q : Query) (acc : ExtractAcc) (c : Clause) : Except PyError ExtractAcc :=
  match c with
  | .bindparam key value callable =>
      .ok { acc with binds := (c, visit_bindparam q key value callable) :: acc.binds }
  | .column _ => .ok { acc with clauses := c :: acc.clauses }
  | .binary l op r => visit_binary acc l op r
  | _ => .ok acc

mutual

/-- Model of sqlalchemy.sql.visitors.traverse_depthfirst node order: a
child is always yielded before any ancestor (the library produces the
reverse of a breadth-first enumeration; post-order preserves the
children-before-parents invariant the extractor relies on). -/
def dfsPost : Clause → List Clause
  | .column n => [.column n]
  | .bindparam k v c => [.bindparam k v c]
  | .binary l op r => dfsPost l ++ dfsPost r ++ [.binary l op r]
  | .grouping e => dfsPost e ++ [.grouping e]
  | .clauselist cs => dfsPostList cs ++ [.clauselist cs]

/-- Traversal of a list of children, in order. -/
def dfsPostList : List Clause → List Clause
  | [] => []
  | c :: cs => dfsPost c ++ dfsPostList cs

end

/-- Embedding of _get_query_comparisons: traverse the criterion tree
depth-first with the three visitors, then return the comparisons list.
A query with no criterion yields no comparisons. -/
def _get_query_comparisons (q : Query) : Except PyError (List (Clause × Operator × Val)) :=
  match q.criterion with
  | none => .ok []
  | some crit =>
    match (dfsPost crit).foldlM (visitNode q) ⟨[], [], []⟩ with
    | .error e => .error e
    | .ok acc => .ok acc.comparisons

/-- The configuration dictionary after __init__ setdefault calls and
any configure() updates; field names follow the SQLALCHEMY_* keys. -/
structure Config where
  database_uri : Option String
  binds : Option (List (String × Option String))
  enable_shard : Bool
  enable_pool : Bool
  pool_size : Nat
  pool_timeout : Nat
  pool_recycle : Nat
  max_overflow : Nat
  echo : Bool
deriving DecidableEq, Repr

/-- The defaults installed by QKSQLAlchemy.__init__ via setdefault. -/
def defaultConfig : Config where
  database_uri := none
  binds := none
  enable_shard := false
  enable_pool := false
  pool_size := 1
  pool_timeout := 30
  pool_recycle := 60
  max_overflow := 10
  echo := true

/-- The keyword options QKSQLAlchemy.create_engine passes to the
underlying engine factory: pool parameters when pooling is enabled,
NullPool otherwise, echo flags when echo is configured. -/
structure EngineOptions where
  pool_size : Option Nat
  pool_timeout : Option Nat
  pool_recycle : Option Nat
  max_overflow : Option Nat
  null_pool : Bool
  echo : Bool
  echo_pool : Bool
deriving DecidableEq, Repr

/-- Option construction in QKSQLAlchemy.create_engine. -/
def engine_options (cfg : Config) : EngineOptions :=
  if cfg.enable_pool then
    { pool_size := some cfg.pool_size
      pool_timeout := some cfg.pool_timeout
      pool_recycle := some cfg.pool_recycle
      max_overflow := some cfg.max_overflow
      null_pool := false
      echo := cfg.echo
      echo_pool := cfg.echo }
  else
    { pool_size := none
      pool_timeout := none
      pool_recycle := none
      max_overflow := none
      null_pool := true
      echo := cfg.echo
      echo_pool := cfg.echo }

/-- An Engine object: the numeric identity distinguishes distinct
constructions, uri and opts record what it was created from. -/
structure Engine where
  eid : Nat
  uri : String
  opts : EngineOptions
deriving DecidableEq, Repr

/-- A scoped session object as produced by create_session: identity,
the engine handed to sessionmaker as bind (possibly null), and whether
the session class is QKShardSession. -/
structure ScopedSession where
  sid : Nat
  bind : Option Engine
  shard : Bool
deriving DecidableEq, Repr

/-- A reflected Table object: identity plus the table name. -/
structure Table where
  tid : Nat
  name : String
deriving DecidableEq, Repr

/-- An automapped model class: identity plus its table attribute. -/
structure Model where
  mid : Nat
  table : Table
deriving DecidableEq, Repr

/-- The mutable state of one QKSQLAlchemy instance: configuration, the
engines/sessions/tables/models caches, a fresh-identity counter, and
ghost counters for engine constructions and schema introspections.
Cache keys are Option String because bind_key None denotes the default
bind; association-list cons shadows earlier entries, matching dict
assignment for lookups. -/
structure DBState where
  config : Config
  engines : List (Option String × Engine)
  sessions : List (Option String × ScopedSession)
  tables : List (String × Table)
  models : List (String × Model)
  nextId : Nat
  engineConstructions : Nat
  introspections : Nat
deriving DecidableEq, Repr

/-- The state right after QKSQLAlchemy.__init__. -/
def initState : DBState where
  config := defaultConfig
  engines := []
  sessions := []
  tables := []
  models := []
  nextId := 0
  engineConstructions := 0
  introspections := 0

/-- Embedding of QKSQLAlchemy.create_engine: builds a fresh Engine
from the uri and configuration-derived options. -/
def create_engine (st : DBState) (uri : String) : Engine × DBState :=
  (⟨st.nextId, uri, engine_options st.config⟩,
   { st with nextId := st.nextId + 1,
             engineConstructions := st.engineConstructions + 1 })

/-- The uri-resolution branch of get_engine: the primary uri for the
default bind, otherwise the SQLALCHEMY_BINDS entry for the key, which
raises TypeError when the binds mapping is None (subscripting None)
and KeyError when the key is absent from the mapping. -/
def resolve_uri (st : DBState) (bind_key : Option String) : Except PyError (Option String) :=
  match bind_key with
  | none => .ok st.config.database_uri
  | some k =>
    match st.config.binds with
    | none => .error .typeError
    | some m =>
      match m.lookup k with
      | some u => .ok u
      | none => .error .keyError

/-- Embedding of QKSQLAlchemy.get_engine: return the cached engine if
present; else resolve a uri via resolve_uri; a null uri returns null
without caching; otherwise construct, cache and return.  The whole
body runs under the engine lock, hence as one atomic step. -/
def get_engine (st : DBState) (bind_key : Option String := none) :
    Except PyError (Option Engine × DBState) :=
  match st.engines.lookup bind_key with
  | some e => .ok (some e, st)
  | none =>
    match resolve_uri st bind_key with
    | .error e => .error e
    | .ok none => .ok (none, st)
    | .ok (some uri) =>
      let (e, st1) := create_engine st uri
      .ok (some e, { st1 with engines := (bind_key, e) :: st1.engines })

/-- Embedding of QKSQLAlchemy.create_session: a scoped session over a
sessionmaker bound to the given (possibly null) engine, with class
QKShardSession when shard is set and QKSession otherwise. -/
def create_session (st : DBState) (engine : Option Engine) (shard : Bool := false) :
    ScopedSession × DBState :=
  (⟨st.nextId, engine, shard⟩, { st with nextId := st.nextId + 1 })

/-- Embedding of QKSQLAlchemy.get_session: return the cached session
if present; else fetch the engine for the bind key and build a sharded
session exactly when the bind key is None and SQLALCHEMY_ENABLE_SHARD
is set, then cache and return it. -/
def get_session (st : DBState) (bind_key : Option String := none) :
    Except PyError (ScopedSession × DBState) :=
  match st.sessions.lookup bind_key with
  | some s => .ok (s, st)
  | none =>
    match get_engine st bind_key with
    | .error e => .error e
    | .ok (engine, st1) =>
      let (s, st2) := create_session st1 engine
          (bind_key.isNone && st1.config.enable_shard)
      .ok (s, { st2 with sessions := (bind_key, s) :: st2.sessions })

/-- Model of MetaData(bind=engine).reflect(only=[table_name]): the
schema-introspection black box, producing a fresh Table object for the
name and bumping the introspection counter. -/
def schema_reflect (st : DBState) (table_name : String) : Table × DBState :=
  (⟨st.nextId, table_name⟩,
   { st with nextId := st.nextId + 1, introspections := st.introspections + 1 })

/-- Model of automap_base(...).prepare() followed by reading the class
for the table: a fresh model object carrying the reflected table. -/
def automap_model (st : DBState) (t : Table) : Model × DBState :=
  (⟨st.nextId, t⟩, { st with nextId := st.nextId + 1 })

/-- Embedding of QKSQLAlchemy.reflect_table: return the cached table
for the name if present (the bind key is not consulted); else fetch
the engine, introspect the schema, cache the table under the name and
return it. -/
def reflect_table (st : DBState) (table_name : String) (bind_key : Option String := none) :
    Except PyError (Table × DBState) :=
  match st.tables.lookup table_name with
  | some t => .ok (t, st)
  | none =>
    match get_engine st bind_key with
    | .error e => .error e
    | .ok (_, st1) =>
      let (t, st2) := schema_reflect st1 table_name
      .ok (t, { st2 with tables := (table_name, t) :: st2.tables })

/-- Embedding of QKSQLAlchemy.reflect_model: return the cached model
for the name if present (only the models cache is checked); else fetch
the engine, introspect the schema, store the fresh table in the tables
cache (overwriting any earlier entry), automap a model from it, cache
and return the model. -/
def reflect_model (st : DBState) (table_name : String) (bind_key : Option String := none) :
    Except PyError (Model × DBState) :=
  match st.models.lookup table_name with
  | some m => .ok (m, st)
  | none =>
    match get_engine st bind_key with
    | .error e => .error e
    | .ok (_, st1) =>
      let (t, st2) := schema_reflect st1 table_name
      let st3 := { st2 with tables := (table_name, t) :: st2.tables }
      let (m, st4) := automap_model st3 t
      .ok (m, { st4 with models := (table_name, m) :: st4.models })

/-- The default-shard sentinel: the empty string (module constant
_DEFAULT_SHARD_ID; the identity test against it in get_bind behaves as
string equality because the empty string is interned). -/
def _DEFAULT_SHARD_ID : String := ""

/-- Default shard_chooser: always the default shard. -/
def _shard_chooser (_mapper _instance _clause : Unit) : String :=
  _DEFAULT_SHARD_ID

/-- Default id_chooser: the singleton default shard. -/
def _id_chooser (_query : Query) (_ident : List Val) : List String :=
  [_DEFAULT_SHARD_ID]

/-- Default query_chooser: returns the singleton default shard
immediately.  The fallback block after the return statement in the
source (building shard_ids from _get_query_comparisons and replacing
an empty result with the default shard) is unreachable dead code and
therefore has no effect to embed. -/
def _query_chooser (_query : Query) : List String :=
  [_DEFAULT_SHARD_ID]

/-- Embedding of QKShardSession.get_bind: when no shard id is passed,
consult shard_chooser (chooserResult is the value the installed
chooser returns for this mapper/instance/clause); the sentinel shard
id resolves to the default-bind engine, any other shard id to the
engine of the named bind equal to it. -/
def get_bind (st : DBState) (chooserResult : String) (shard_id : Option String := none) :
    Except PyError (Option Engine × DBState) :=
  let sid := match shard_id with
             | none => chooserResult
             | some s => s
  if sid = _DEFAULT_SHARD_ID then
    get_engine st none
  else
    get_engine st (some sid)

/-- Modelled from the spec: the query fan-out loop of the sharded
session machinery (SQLAlchemy's ShardedQuery, an external collaborator
not part of this repository) issues the query once per shard id in the
query_chooser result, resolving each id to an engine through the
session's get_bind, and merges the results; the engines hit are
collected here in order. -/
def query_shard_engines (st : DBState) (shard_ids : List String) :
    Except PyError (List (Option Engine) × DBState) :=
  match shard_ids with
  | [] => .ok ([], st)
  | sid :: rest =>
    match get_bind st _DEFAULT_SHARD_ID (some sid) with
    | .error e => .error e
    | .ok (eng, st1) =>
      match query_shard_engines st1 rest with
      | .error e => .error e
      | .ok (engs, st2) => .ok (eng :: engs, st2)

/-- n successive get_engine calls for one bind key, each call atomic:
the engine lock is acquired as the first statement of get_engine and
held across the whole read-check-create-store body, so any concurrent
execution of the calls is equivalent to a serialization. -/
def run_get_engine_calls (st : DBState) (bind_key : Option String) :
    Nat → List (Except PyError (Option Engine)) × DBState
  | 0 => ([], st)
  | n + 1 =>
    match get_engine st bind_key with
    | .ok (e, st1) =>
      let (rs, st2) := run_get_engine_calls st1 bind_key n
      (Except.ok e :: rs, st2)
    | .error err =>
      let (rs, st2) := run_get_engine_calls st bind_key n
      (Except.error err :: rs, st2)

/-- A configured registry state used to instantiate the theorems: a
primary uri and one named bind, fresh caches. -/
def cfgState : DBState :=
  { initState with
    config := { defaultConfig with
                database_uri := some "sqlite:///main.db"
                binds := some [("shard_001", some "sqlite:///s1.db")] } }

/-- cfgState with sharding enabled. -/
def shardCfgState : DBState :=
  { cfgState with config := { cfgState.config with enable_shard := true } }

/-- The engine get_engine builds for the default bind of cfgState. -/
def engD : Engine := ⟨0, "sqlite:///main.db", engine_options cfgState.config⟩

/-- cfgState after a first default-bind get_engine call. -/
def stE : DBState :=
  { cfgState with engines := [(none, engD)], nextId := 1, engineConstructions := 1 }

/-- The engine built for bind shard_001 starting from stE. -/
def engS1 : Engine := ⟨1, "sqlite:///s1.db", engine_options cfgState.config⟩

/-- stE after get_engine for bind shard_001. -/
def stE2 : DBState :=
  { cfgState with
    engines := [(some "shard_001", engS1), (none, engD)]
    nextId := 2
    engineConstructions := 2 }

/-- The session get_session builds for the default bind of cfgState. -/
def sessD : ScopedSession := ⟨1, some engD, false⟩

/-- cfgState after a first default-bind get_session call. -/
def stS : DBState :=
  { cfgState with
    engines := [(none, engD)]
    sessions := [(none, sessD)]
    nextId := 2
    engineConstructions := 1 }

/-- The table reflect_table builds for name user on cfgState. -/
def tblU : Table := ⟨1, "user"⟩

/-- cfgState after a first reflect_table for name user. -/
def stT : DBState :=
  { cfgState with
    engines := [(none, engD)]
    tables := [("user", tblU)]
    nextId := 2
    engineConstructions := 1
    introspections := 1 }

/-- The model reflect_model builds for name user on cfgState. -/
def mdlU : Model := ⟨2, tblU⟩

/-- cfgState after a first reflect_model for name user. -/
def stM : DBState :=
  { cfgState with
    engines := [(none, engD)]
    tables := [("user", tblU)]
    models := [("user", mdlU)]
    nextId := 3
    engineConstructions := 1
    introspections := 1 }

/-- The second table introspected when reflect_model follows
reflect_table for name user. -/
def tblU2 : Table := ⟨2, "user"⟩

/-- The model built from that second table. -/
def mdlU2 : Model := ⟨3, tblU2⟩

/-- stT after reflect_model for name user: a second introspection has
happened and the tables cache entry is shadowed by the new table. -/
def stT2 : DBState :=
  { cfgState with
    engines := [(none, engD)]
    tables := [("user", tblU2), ("user", tblU)]
    models := [("user", mdlU2)]
    nextId := 4
    engineConstructions := 1
    introspections := 2 }

/-- The engine built for the default bind of shardCfgState. -/
def engDs : Engine := ⟨0, "sqlite:///main.db", engine_options shardCfgState.config⟩

/-- shardCfgState after a first default-bind get_engine call. -/
def stDs : DBState :=
  { shardCfgState with
    engines := [(none, engDs)]
    nextId := 1
    engineConstructions := 1 }

theorem lookup_cons_self {α β : Type} [BEq α] [LawfulBEq α]
    (l : List (α × β)) (k : α) (v : β) :
    List.lookup k ((k, v) :: l) = some v := by
  simp [List.lookup]

theorem get_engine_cached (st : DBState) (k : Option String) (e : Engine)
    (h : st.engines.lookup k = some e) :
    get_engine st k = .ok (some e, st) := by
  simp [get_engine, h]

theorem get_engine_ok_some (st : DBState) (k : Option String) (e : Engine)
    (st' : DBState) (h : get_engine st k = .ok (some e, st')) :
    st'.engines.lookup k = some e ∧ st'.sessions = st.sessions ∧
      st'.tables = st.tables ∧ st'.models = st.models ∧
      st'.config = st.config ∧ st'.introspections = st.introspections := by
  unfold get_engine at h
  cases hc : st.engines.lookup k with
  | some e0 =>
    rw [hc] at h
    simp at h
    obtain ⟨he, hst⟩ := h
    subst he; subst hst
    exact ⟨hc, rfl, rfl, rfl, rfl, rfl⟩
  | none =>
    rw [hc] at h
    cases hu : resolve_uri st k with
    | error err => rw [hu] at h; simp at h
    | ok uo =>
      rw [hu] at h
      cases uo with
      | none => simp at h
      | some u =>
        simp [create_engine] at h
        obtain ⟨he, hst⟩ := h
        subst hst
        refine ⟨?_, rfl, rfl, rfl, rfl, rfl⟩
        simp [lookup_cons_self, he]

theorem get_engine_idem (st : DBState) (k : Option String) (e : Engine)
    (st' : DBState) (h : get_engine st k = .ok (some e, st')) :
    get_engine st' k = .ok (some e, st') :=
  get_engine_cached st' k e (get_engine_ok_some st k e st' h).1

theorem get_engine_ok_frame (st : DBState) (k : Option String)
    (p : Option Engine × DBState) (h : get_engine st k = .ok p) :
    p.2.sessions = st.sessions ∧ p.2.tables = st.tables ∧
      p.2.models = st.models ∧ p.2.config = st.config ∧
      p.2.introspections = st.introspections := by
  unfold get_engine at h
  cases hc : st.engines.lookup k with
  | some e0 =>
    rw [hc] at h
    simp at h
    subst h
    exact ⟨rfl, rfl, rfl, rfl, rfl⟩
  | none =>
    rw [hc] at h
    cases hu : resolve_uri st k with
    | error err => rw [hu] at h; simp at h
    | ok uo =>
      rw [hu] at h
      cases uo with
      | none => simp at h; subst h; exact ⟨rfl, rfl, rfl, rfl, rfl⟩
      | some u =>
        simp [create_engine] at h
        subst h
        exact ⟨rfl, rfl, rfl, rfl, rfl⟩

theorem get_session_cached (st : DBState) (k : Option String) (s : ScopedSession)
    (h : st.sessions.lookup k = some s) :
    get_session st k = .ok (s, st) := by
  simp [get_session, h]

theorem get_session_ok (st : DBState) (k : Option String) (s : ScopedSession)
    (st' : DBState) (h : get_session st k = .ok (s, st')) :
    st'.sessions.lookup k = some s := by
  unfold get_session at h
  cases hc : st.sessions.lookup k with
  | some s0 =>
    rw [hc] at h
    simp at h
    obtain ⟨hs, hst⟩ := h
    subst hs; subst hst
    exact hc
  | none =>
    rw [hc] at h
    cases hg : get_engine st k with
    | error err => rw [hg] at h; simp at h
    | ok p =>
      obtain ⟨oe, st1⟩ := p
      rw [hg] at h
      simp [create_session] at h
      obtain ⟨hs, hst⟩ := h
      subst hst
      simp [lookup_cons_self, hs]

theorem get_session_idem (st : DBState) (k : Option String) (s : ScopedSession)
    (st' : DBState) (h : get_session st k = .ok (s, st')) :
    get_session st' k = .ok (s, st') :=
  get_session_cached st' k s (get_session_ok st k s st' h)

theorem reflect_table_cached (st : DBState) (n : String) (t : Table)
    (k : Option String) (h : st.tables.lookup n = some t) :
    reflect_table st n k = .ok (t, st) := by
  simp [reflect_table, h]

theorem reflect_table_ok (st : DBState) (n : String) (k : Option String)
    (t : Table) (st' : DBState) (h : reflect_table st n k = .ok (t, st')) :
    st'.tables.lookup n = some t ∧ st'.models = st.models := by
  unfold reflect_table at h
  cases hc : st.tables.lookup n with
  | some t0 =>
    rw [hc] at h
    simp at h
    obtain ⟨ht, hst⟩ := h
    subst ht; subst hst
    exact ⟨hc, rfl⟩
  | none =>
    rw [hc] at h
    cases hg : get_engine st k with
    | error err => rw [hg] at h; simp at h
    | ok p =>
      obtain ⟨oe, st1⟩ := p
      rw [hg] at h
      simp [schema_reflect] at h
      obtain ⟨ht, hst⟩ := h
      subst hst
      refine ⟨by simp [lookup_cons_self, ht], ?_⟩
      exact (get_engine_ok_frame st k (oe, st1) hg).2.2.1

theorem reflect_table_idem (st : DBState) (n : String) (k k2 : Option String)
    (t : Table) (st' : DBState) (h : reflect_table st n k = .ok (t, st')) :
    reflect_table st' n k2 = .ok (t, st') :=
  reflect_table_cached st' n t k2 (reflect_table_ok st n k t st' h).1

theorem reflect_model_cached (st : DBState) (n : String) (m : Model)
    (k : Option String) (h : st.models.lookup n = some m) :
    reflect_model st n k = .ok (m, st) := by
  simp [reflect_model, h]

theorem reflect_model_ok (st : DBState) (n : String) (k : Option String)
    (m : Model) (st' : DBState) (h : reflect_model st n k = .ok (m, st')) :
    st'.models.lookup n = some m := by
  unfold reflect_model at h
  cases hc : st.models.lookup n with
  | some m0 =>
    rw [hc] at h
    simp at h
    obtain ⟨hm, hst⟩ := h
    subst hm; subst hst
    exact hc
  | none =>
    rw [hc] at h
    cases hg : get_engine st k with
    | error err => rw [hg] at h; simp at h
    | ok p =>
      obtain ⟨oe, st1⟩ := p
      rw [hg] at h
      simp [schema_reflect, automap_model] at h
      obtain ⟨hm, hst⟩ := h
      subst hst
      simp [lookup_cons_self, hm]

theorem reflect_model_idem (st : DBState) (n : String) (k k2 : Option String)
    (m : Model) (st' : DBState) (h : reflect_model st n k = .ok (m, st')) :
    reflect_model st' n k2 = .ok (m, st') :=
  reflect_model_cached st' n m k2 (reflect_model_ok st n k m st' h)

theorem reflect_model_fresh (st : DBState) (n : String) (k : Option String)
    (m : Model) (st' : DBState) (hM : st.models.lookup n = none)
    (h : reflect_model st n k = .ok (m, st')) :
    st'.tables.lookup n = some m.table ∧
      st'.introspections = st.introspections + 1 := by
  unfold reflect_model at h
  rw [hM] at h
  cases hg : get_engine st k with
  | error err => rw [hg] at h; simp at h
  | ok p =>
    obtain ⟨oe, st1⟩ := p
    rw [hg] at h
    simp [schema_reflect, automap_model] at h
    obtain ⟨hm, hst⟩ := h
    subst hst
    constructor
    · rw [← hm]
      simp [lookup_cons_self]
    · have := (get_engine_ok_frame st k (oe, st1) hg).2.2.2.2
      have h2 : st1.introspections = st.introspections := this
      simp [h2]

theorem reflect_table_fresh (st : DBState) (n : String) (k : Option String)
    (t : Table) (st' : DBState) (hT : st.tables.lookup n = none)
    (h : reflect_table st n k = .ok (t, st')) :
    st'.introspections = st.introspections + 1 := by
  unfold reflect_table at h
  rw [hT] at h
  cases hg : get_engine st k with
  | error err => rw [hg] at h; simp at h
  | ok p =>
    obtain ⟨oe, st1⟩ := p
    rw [hg] at h
    simp [schema_reflect] at h
    obtain ⟨ht, hst⟩ := h
    subst hst
    have := (get_engine_ok_frame st k (oe, st1) hg).2.2.2.2
    have h2 : st1.introspections = st.introspections := this
    simp [h2]

theorem run_calls_cached (k : Option String) (e : Engine) :
    ∀ (n : Nat) (st : DBState), st.engines.lookup k = some e →
      run_get_engine_calls st k n = (List.replicate n (Except.ok (some e)), st)
  | 0, st, _ => by simp [run_get_engine_calls]
  | n + 1, st, h => by
    simp [run_get_engine_calls, get_engine_cached st k e h,
          run_calls_cached k e n st h, List.replicate]

theorem extract_simple_eq (params : List (String × Val)) (cn key : String)
    (dflt : Val) (copt : Option Val) :
    _get_query_comparisons ⟨params, some (.binary (.column cn) .eq (.bindparam key dflt copt))⟩ =
      .ok [(.column cn, .eq,
            visit_bindparam ⟨params, some (.binary (.column cn) .eq (.bindparam key dflt copt))⟩ key dflt copt)] := by
  simp [_get_query_comparisons, dfsPost, visitNode, visit_binary, inClauses,
        bindsLookup, clauseBeq, clauseBeq_refl, valBeq_refl, valOptBeq_refl,
        hasattrClauses, List.foldlM, List.find?, List.any,
        bind, Except.bind, pure, Except.pure]

/-- C2: extraction on a filter shard_key equal to 5 yields exactly the
tuple (shard_key column, equals, 5); on shard_key IN (1,2,3) exactly
(shard_key column, in, (1,2,3)); and combining either with the
unrelated filter name equal to "bob" yields exactly both tuples, in no
guaranteed order (stated as a permutation of the two-element list). -/
theorem predicate_extraction_correctness :
    _get_query_comparisons ⟨[], some (.binary (.column "shard_key") .eq
        (.bindparam "p1" (.vint 5) none))⟩ =
      .ok [(.column "shard_key", .eq, .vint 5)] ∧
    _get_query_comparisons ⟨[], some (.binary (.column "shard_key") .in_op
        (.grouping (.clauselist [.bindparam "p1" (.vint 1) none,
            .bindparam "p2" (.vint 2) none, .bindparam "p3" (.vint 3) none])))⟩ =
      .ok [(.column "shard_key", .in_op, .vtup [.vint 1, .vint 2, .vint 3])] ∧
    (∃ l, _get_query_comparisons ⟨[], some (.clauselist
        [.binary (.column "shard_key") .eq (.bindparam "p1" (.vint 5) none),
         .binary (.column "name") .eq (.bindparam "p2" (.vstr "bob") none)])⟩ =
        .ok l ∧
      l.Perm [(.column "shard_key", .eq, .vint 5),
              (.column "name", .eq, .vstr "bob")]) ∧
    (∃ l, _get_query_comparisons ⟨[], some (.clauselist
        [.binary (.column "shard_key") .in_op (.grouping (.clauselist
            [.bindparam "p1" (.vint 1) none, .bindparam "p2" (.vint 2) none,
             .bindparam "p3" (.vint 3) none])),
         .binary (.column "name") .eq (.bindparam "p4" (.vstr "bob") none)])⟩ =
        .ok l ∧
      l.Perm [(.column "shard_key", .in_op, .vtup [.vint 1, .vint 2, .vint 3]),
              (.column "name", .eq, .vstr "bob")]) := by
  exact ⟨rfl, rfl, ⟨_, rfl, List.Perm.refl _⟩, ⟨_, rfl, List.Perm.refl _⟩⟩

/-- C8: the extractor resolves a bound-parameter node by precedence:
a value in the query's explicit parameter map wins, else the deferred
callable result, else the literal default; witnessed end to end on the
one-comparison criterion column c equal to the parameter. -/
theorem bindparam_resolution_precedence (params : List (String × Val)) (key : String)
    (dflt : Val) (copt : Option Val) :
    (∀ v, params.lookup key = some v →
       _get_query_comparisons ⟨params, some (.binary (.column "c") .eq
           (.bindparam key dflt copt))⟩ = .ok [(.column "c", .eq, v)]) ∧
    (params.lookup key = none → ∀ cv, copt = some cv →
       _get_query_comparisons ⟨params, some (.binary (.column "c") .eq
           (.bindparam key dflt copt))⟩ = .ok [(.column "c", .eq, cv)]) ∧
    (params.lookup key = none → copt = none →
       _get_query_comparisons ⟨params, some (.binary (.column "c") .eq
           (.bindparam key dflt copt))⟩ = .ok [(.column "c", .eq, dflt)]) := by
  refine ⟨?_, ?_, ?_⟩
  · intro v hv
    rw [extract_simple_eq]
    simp [visit_bindparam, hv]
  · intro hp cv hc
    rw [extract_simple_eq]
    simp [visit_bindparam, hp, hc]
  · intro hp hc
    rw [extract_simple_eq]
    simp [visit_bindparam, hp, hc]

/-- Witness for C8 at concrete inputs: the explicit map wins over a
present callable and default; the callable wins over the default when
the map misses; the default is used when both are absent. -/
theorem bindparam_resolution_precedence_check :
    _get_query_comparisons ⟨[("k", .vint 7)], some (.binary (.column "c") .eq
        (.bindparam "k" (.vint 9) (some (.vint 8))))⟩ =
      .ok [(.column "c", .eq, .vint 7)] ∧
    _get_query_comparisons ⟨[], some (.binary (.column "c") .eq
        (.bindparam "k" (.vint 9) (some (.vint 8))))⟩ =
      .ok [(.column "c", .eq, .vint 8)] ∧
    _get_query_comparisons ⟨[], some (.binary (.column "c") .eq
        (.bindparam "k" (.vint 9) none))⟩ =
      .ok [(.column "c", .eq, .vint 9)] :=
  ⟨(bindparam_resolution_precedence [("k", .vint 7)] "k" (.vint 9) (some (.vint 8))).1
      (.vint 7) rfl,
   (bindparam_resolution_precedence [] "k" (.vint 9) (some (.vint 8))).2.1
      rfl (.vint 8) rfl,
   (bindparam_resolution_precedence [] "k" (.vint 9) none).2.2 rfl rfl⟩

/-- C3: idempotent caching: a successful first get_engine call for a
bind key (returning an engine, hence a configured non-null uri) makes
every later call return the identical engine with the state unchanged
(so no second construction); likewise get_session returns the
identical session factory and reflect_table / reflect_model return the
identical cached descriptor on every call after the first. -/
theorem idempotent_caching :
    (∀ (st : DBState) (k : Option String) (e : Engine) (st' : DBState),
       get_engine st k = .ok (some e, st') → get_engine st' k = .ok (some e, st')) ∧
    (∀ (st : DBState) (k : Option String) (s : ScopedSession) (st' : DBState),
       get_session st k = .ok (s, st') → get_session st' k = .ok (s, st')) ∧
    (∀ (st : DBState) (n : String) (k : Option String) (t : Table) (st' : DBState),
       reflect_table st n k = .ok (t, st') → reflect_table st' n k = .ok (t, st')) ∧
    (∀ (st : DBState) (n : String) (k : Option String) (m : Model) (st' : DBState),
       reflect_model st n k = .ok (m, st') → reflect_model st' n k = .ok (m, st')) :=
  ⟨get_engine_idem,
   get_session_idem,
   fun st n k t st' h => reflect_table_idem st n k k t st' h,
   fun st n k m st' h => reflect_model_idem st n k k m st' h⟩

/-- Witness for C3: on the configured state, the second call of each
of the four operations returns the object of the first call with the
state unchanged. -/
theorem idempotent_caching_check :
    get_engine stE none = .ok (some engD, stE) ∧
    get_session stS none = .ok (sessD, stS) ∧
    reflect_table stT "user" none = .ok (tblU, stT) ∧
    reflect_model stM "user" none = .ok (mdlU, stM) :=
  ⟨idempotent_caching.1 cfgState none engD stE rfl,
   idempotent_caching.2.1 cfgState none sessD stS rfl,
   idempotent_caching.2.2.1 cfgState "user" none tblU stT rfl,
   idempotent_caching.2.2.2 cfgState "user" none mdlU stM rfl⟩

/-- C4: requesting an unseen named bind whose key is absent from the
configured binds mapping raises KeyError instead of returning. -/
theorem unknown_named_bind_fails (st : DBState) (k : String)
    (m : List (String × Option String)) (hcfg : st.config.binds = some m)
    (hmiss : m.lookup k = none) (hfresh : st.engines.lookup (some k) = none) :
    get_engine st (some k) = .error .keyError := by
  simp [get_engine, hfresh, resolve_uri, hcfg, hmiss]

/-- Witness for C4: bind key nope is absent from the configured
mapping of cfgState and the call raises KeyError. -/
theorem unknown_named_bind_fails_check :
    get_engine cfgState (some "nope") = .error .keyError :=
  unknown_named_bind_fails cfgState "nope"
    [("shard_001", some "sqlite:///s1.db")] rfl rfl rfl

/-- C5: shard-id bind resolution in QKShardSession.get_bind: the
default-shard sentinel resolves to the default-bind engine, any other
shard id to the engine of the named bind equal to it, and when no
shard id is passed the installed shard_chooser's result is used the
same way. -/
theorem shard_id_bind_resolution (st : DBState) (cr sid : String) (eD eK : Engine) :
    (sid = _DEFAULT_SHARD_ID → st.engines.lookup none = some eD →
       get_bind st cr (some sid) = .ok (some eD, st)) ∧
    (sid ≠ _DEFAULT_SHARD_ID → st.engines.lookup (some sid) = some eK →
       get_bind st cr (some sid) = .ok (some eK, st)) ∧
    get_bind st cr none = get_bind st cr (some cr) := by
  refine ⟨?_, ?_, rfl⟩
  · intro hs hl
    subst hs
    simp [get_bind, get_engine_cached _ _ _ hl]
  · intro hs hl
    simp [get_bind, hs, get_engine_cached _ _ _ hl]

/-- Witness for C5 on a state with a cached default engine and a
cached engine for bind shard_001. -/
theorem shard_id_bind_resolution_check :
    get_bind stE2 "x" (some "") = .ok (some engD, stE2) ∧
    get_bind stE2 "x" (some "shard_001") = .ok (some engS1, stE2) ∧
    get_bind stE2 "" none = get_bind stE2 "" (some "") :=
  ⟨(shard_id_bind_resolution stE2 "x" "" engD engS1).1 rfl rfl,
   (shard_id_bind_resolution stE2 "x" "shard_001" engD engS1).2.1 (by decide) rfl,
   (shard_id_bind_resolution stE2 "" "" engD engS1).2.2⟩

/-- C7: with the primary uri unset and sharding off, get_engine for
the default bind returns null with the state unchanged (no exception,
nothing cached), while get_session for the default bind still returns
a session whose bind (the engine handed to the session factory) is
null and which is not sharded. -/
theorem unconfigured_default_bind (st : DBState)
    (h1 : st.config.database_uri = none) (h2 : st.config.enable_shard = false)
    (h3 : st.engines.lookup none = none) (h4 : st.sessions.lookup none = none) :
    get_engine st none = .ok (none, st) ∧
    ∃ s st', get_session st none = .ok (s, st') ∧ s.bind = none ∧ s.shard = false := by
  have hg : get_engine st none = .ok (none, st) := by
    simp [get_engine, h3, resolve_uri, h1]
  refine ⟨hg, ⟨st.nextId, none, false⟩, ?_, ?_, rfl, rfl⟩
  · exact { st with
      sessions := (none, ⟨st.nextId, none, false⟩) :: st.sessions
      nextId := st.nextId + 1 }
  · simp [get_session, h4, hg, create_session, h2]

/-- Witness for C7 at the freshly initialized state, whose defaults
leave the primary uri unset and sharding off. -/
theorem unconfigured_default_bind_check :
    get_engine initState none = .ok (none, initState) ∧
    ∃ s st', get_session initState none = .ok (s, st') ∧
      s.bind = none ∧ s.shard = false :=
  unconfigured_default_bind initState rfl rfl rfl rfl

/-- Counterexample to C1: on a sharding-enabled configured state, a
custom query-chooser result that is the empty list makes the query
fan-out resolve zero engines, even though the default bind has an
engine (get_engine for the default bind returns one); so the query is
not executed against the default bind, and is executed against zero
shards. -/
theorem query_chooser_empty_zero_shards :
    query_shard_engines shardCfgState [] = .ok ([], shardCfgState) ∧
    get_engine shardCfgState none = .ok (some engDs, stDs) :=
  ⟨rfl, rfl⟩

/-- C1 amended: the default query-chooser always returns the singleton
default-shard sentinel, never an empty list, so with the default
chooser every query targets exactly the default-bind engine; but the
session machinery applies no fallback to a custom chooser's output,
so an empty custom result targets zero shards. -/
theorem query_chooser_default_fallback (st : DBState) (eD : Engine)
    (h : st.engines.lookup none = some eD) :
    (∀ q : Query, _query_chooser q = [_DEFAULT_SHARD_ID]) ∧
    (∀ q : Query, query_shard_engines st (_query_chooser q) = .ok ([some eD], st)) ∧
    query_shard_engines st [] = .ok ([], st) := by
  refine ⟨fun _ => rfl, fun q => ?_, rfl⟩
  simp [_query_chooser, query_shard_engines, get_bind, _DEFAULT_SHARD_ID,
        get_engine_cached _ _ _ h]

/-- Witness for the amended C1 on a state with a cached default
engine. -/
theorem query_chooser_default_fallback_check :
    _query_chooser ⟨[], none⟩ = [_DEFAULT_SHARD_ID] ∧
    query_shard_engines stE (_query_chooser ⟨[], none⟩) = .ok ([some engD], stE) ∧
    query_shard_engines stE [] = .ok ([], stE) :=
  ⟨(query_chooser_default_fallback stE engD rfl).1 ⟨[], none⟩,
   (query_chooser_default_fallback stE engD rfl).2.1 ⟨[], none⟩,
   (query_chooser_default_fallback stE engD rfl).2.2⟩

/-- Counterexample to C6: reflect_table for name user followed by
reflect_model for the same name performs a second live-schema
introspection (the counter reaches 2) and replaces the cached table
with a different object, so introspection is not at-most-once across
the two entry points and the first writer does not win. -/
theorem reflect_table_then_model_introspects_again :
    reflect_table cfgState "user" none = .ok (tblU, stT) ∧
    reflect_model stT "user" none = .ok (mdlU2, stT2) ∧
    stT.introspections = 1 ∧ stT2.introspections = 2 ∧
    stT2.tables.lookup "user" = some tblU2 ∧ tblU2 ≠ tblU :=
  ⟨rfl, rfl, rfl, rfl, rfl, by decide⟩

/-- C6 amended: after a successful reflect_model for a name, every
subsequent reflect_model and reflect_table call for that name returns
the cached descriptor with the state unchanged, regardless of bind
key; after a successful reflect_table, subsequent reflect_table calls
are cached, but the first subsequent reflect_model for the name
introspects the live schema exactly once more. -/
theorem reflection_caching_after_model (st : DBState) (n : String) (k : Option String) :
    (st.models.lookup n = none →
      ∀ m st', reflect_model st n k = .ok (m, st') →
        ∀ k2, reflect_model st' n k2 = .ok (m, st') ∧
              reflect_table st' n k2 = .ok (m.table, st')) ∧
    (∀ t st', reflect_table st n k = .ok (t, st') →
        ∀ k2, reflect_table st' n k2 = .ok (t, st')) ∧
    (st.models.lookup n = none →
      ∀ t st', reflect_table st n k = .ok (t, st') →
        ∀ k2 m st'', reflect_model st' n k2 = .ok (m, st'') →
          st''.introspections = st'.introspections + 1) := by
  refine ⟨?_, ?_, ?_⟩
  · intro hM m st' h k2
    refine ⟨reflect_model_idem st n k k2 m st' h, ?_⟩
    exact reflect_table_cached st' n m.table k2 (reflect_model_fresh st n k m st' hM h).1
  · intro t st' h k2
    exact reflect_table_idem st n k k2 t st' h
  · intro hM t st' h k2 m st'' h2
    have hmod : st'.models = st.models := (reflect_table_ok st n k t st' h).2
    have hM' : st'.models.lookup n = none := by rw [hmod]; exact hM
    exact (reflect_model_fresh st' n k2 m st'' hM' h2).2

/-- Witness for the amended C6 on the configured state: cached reads
after reflect_model, cached reflect_table after reflect_table, and the
introspection counter stepping once more when reflect_model follows
reflect_table. -/
theorem reflection_caching_after_model_check :
    (reflect_model stM "user" none = .ok (mdlU, stM) ∧
     reflect_table stM "user" none = .ok (tblU, stM)) ∧
    reflect_table stT "user" none = .ok (tblU, stT) ∧
    stT2.introspections = stT.introspections + 1 :=
  ⟨(reflection_caching_after_model cfgState "user" none).1 rfl mdlU stM rfl none,
   (reflection_caching_after_model cfgState "user" none).2.1 tblU stT rfl none,
   (reflection_caching_after_model cfgState "user" none).2.2 rfl tblU stT rfl none
     mdlU2 stT2 rfl⟩

/-- C9: any number of get_engine calls for one never-before-seen bind
key with a configured non-null uri performs exactly one engine
construction and yields the same engine to every caller; each call is
atomic because the engine mutex is held across the whole body, so any
concurrent execution is equivalent to this serialization. -/
theorem concurrent_single_construction (st : DBState) (k : Option String)
    (u : String) (n : Nat) (hu : resolve_uri st k = .ok (some u))
    (hc : st.engines.lookup k = none) :
    ∃ e st', run_get_engine_calls st k (n + 1) =
        (List.replicate (n + 1) (Except.ok (some e)), st') ∧
      st'.engineConstructions = st.engineConstructions + 1 := by
  obtain ⟨e, stA, h1, h2, h3⟩ : ∃ e stA, get_engine st k = .ok (some e, stA) ∧
      List.lookup k stA.engines = some e ∧
      stA.engineConstructions = st.engineConstructions + 1 := by
    refine ⟨⟨st.nextId, u, engine_options st.config⟩,
      { st with
        engines := (k, (⟨st.nextId, u, engine_options st.config⟩ : Engine)) :: st.engines
        nextId := st.nextId + 1
        engineConstructions := st.engineConstructions + 1 }, ?_, ?_, rfl⟩
    · simp [get_engine, hc, hu, create_engine]
    · exact lookup_cons_self _ _ _
  refine ⟨e, stA, ?_, h3⟩
  have hrest := run_calls_cached k e n stA h2
  simp [run_get_engine_calls, h1, hrest, List.replicate]

/-- Witness for C9: three calls for the unseen configured bind
shard_001 on the configured state construct exactly one engine and all
return it. -/
theorem concurrent_single_construction_check :
    ∃ e st', run_get_engine_calls cfgState (some "shard_001") 3 =
        (List.replicate 3 (Except.ok (some e)), st') ∧
      st'.engineConstructions = cfgState.engineConstructions + 1 :=
  concurrent_single_construction cfgState (some "shard_001") "sqlite:///s1.db" 2 rfl rfl

/-- C10: for a name reflected by neither cache, a successful
reflect_model also populates the tables cache with the very table it
introspected, so a later reflect_table for any bind key returns that
table with the state unchanged (no new introspection); conversely a
successful reflect_table leaves the models cache empty for the name,
so a later reflect_model introspects the schema again. -/
theorem reflect_model_populates_tables_not_conversely (st : DBState) (n : String)
    (k : Option String) (hT : st.tables.lookup n = none)
    (hM : st.models.lookup n = none) :
    (∀ m st', reflect_model st n k = .ok (m, st') →
       st'.tables.lookup n = some m.table ∧
       ∀ k2, reflect_table st' n k2 = .ok (m.table, st')) ∧
    (∀ t st', reflect_table st n k = .ok (t, st') →
       st'.models.lookup n = none ∧
       ∀ k2 m st'', reflect_model st' n k2 = .ok (m, st'') →
         st''.introspections = st'.introspections + 1) := by
  constructor
  · intro m st' h
    have hf := reflect_model_fresh st n k m st' hM h
    exact ⟨hf.1, fun k2 => reflect_table_cached st' n m.table k2 hf.1⟩
  · intro t st' h
    have hmod : st'.models = st.models := (reflect_table_ok st n k t st' h).2
    have hM' : st'.models.lookup n = none := by rw [hmod]; exact hM
    exact ⟨hM', fun k2 m st'' h2 => (reflect_model_fresh st' n k2 m st'' hM' h2).2⟩

/-- Witness for C10 on the configured state: after reflect_model the
tables cache holds the introspected table and reflect_table under a
different bind key returns it unchanged; after reflect_table the
models cache is empty for the name and the following reflect_model
introspects once more. -/
theorem reflect_model_populates_tables_check :
    (stM.tables.lookup "user" = some tblU ∧
     reflect_table stM "user" (some "other") = .ok (tblU, stM)) ∧
    (stT.models.lookup "user" = none ∧
     stT2.introspections = stT.introspections + 1) :=
  ⟨⟨((reflect_model_populates_tables_not_conversely cfgState "user" none rfl rfl).1
        mdlU stM rfl).1,
    ((reflect_model_populates_tables_not_conversely cfgState "user" none rfl rfl).1
        mdlU stM rfl).2 (some "other")⟩,
   ⟨((reflect_model_populates_tables_not_conversely cfgState "user" none rfl rfl).2
        tblU stT rfl).1,
    ((reflect_model_populates_tables_not_conversely cfgState "user" none rfl rfl).2
        tblU stT rfl).2 none mdlU2 stT2 rfl⟩⟩
